import Mathlib

/-
Verification of the contact-surface-and-point-pair encoding pipeline of the
hydroelastic_collisions example (ContactResultMaker::CalcContactResults).

The embedding models:
  - 3D vectors as triples of rationals (Vec3);
  - the triangulated contact-surface mesh with its per-vertex pressure field;
  - penetration point pairs;
  - the query object as the record of results the engine calls return
    (strict contact surfaces, fallback surfaces plus point pairs, and the
    inspector body-name resolver);
  - the LCM output records, with counts narrowed to 32-bit signed integers
    exactly as the C++ static casts do, and the message timestamp produced
    by the C++ double-to-int64 conversion (truncation toward zero);
  - vector resize with a negative count (which throws in C++) as Option.none.
-/

structure Vec3 where
  x : ℚ
  y : ℚ
  z : ℚ
deriving DecidableEq

def vadd (a b : Vec3) : Vec3 := ⟨a.x + b.x, a.y + b.y, a.z + b.z⟩

def vdiv (a : Vec3) (c : ℚ) : Vec3 := ⟨a.x / c, a.y / c, a.z / c⟩

/-- The C++ conversion from an exact real (modelled as a rational) to a signed
integer: truncation toward zero, as in the assignment of
context.get_time() * 1e6 to the int64 timestamp field. -/
def ratTrunc (q : ℚ) : Int := Int.tdiv q.num (Int.ofNat q.den)

/-- static_cast of an unsigned size to a 32-bit signed int: reduce modulo
2^32 and reinterpret the leading bit as the sign. -/
def int32ofNat (n : Nat) : Int :=
  let m := n % 4294967296
  if m < 2147483648 then (m : Int) else (m : Int) - 4294967296

/-- TriangleSurfaceMesh: ordered vertices, ordered triangular faces of three
vertex indices, and the engine-computed mesh centroid accessor. -/
structure TriangleSurfaceMesh where
  vertices : List Vec3
  elements : List (Nat × Nat × Nat)
  centroid : Vec3

/-- ContactSurface: the two geometry identifiers, the mesh expressed in world
coordinates, and the scalar pressure field evaluated at vertex indices. -/
structure ContactSurface where
  id_M : Nat
  id_N : Nat
  mesh_W : TriangleSurfaceMesh
  e_MN : Nat → ℚ

/-- PenetrationAsPointPair: two geometry identifiers, the two witness points
in world coordinates, the unit normal and the penetration depth. -/
structure PenetrationAsPointPair where
  id_A : Nat
  id_B : Nat
  p_WCa : Vec3
  p_WCb : Vec3
  nhat_BA_W : Vec3
  depth : ℚ

/-- The query object, modelled as the record of the results its engine calls
produce on the current snapshot: ComputeContactSurfaces for strict hydro,
ComputeContactSurfacesWithFallback for surfaces plus point pairs, and the
inspector name resolver GetName. -/
structure QueryObject where
  ComputeContactSurfaces : List ContactSurface
  ComputeContactSurfacesWithFallback : List ContactSurface × List PenetrationAsPointPair
  GetName : Nat → String

structure lcmt_hydroelastic_contact_surface_tri_for_viz where
  p_WA : Vec3
  p_WB : Vec3
  p_WC : Vec3
  pressure_A : ℚ
  pressure_B : ℚ
  pressure_C : ℚ
deriving DecidableEq

structure lcmt_hydroelastic_quadrature_per_point_data_for_viz where
  p_WQ : Vec3
  vt_BqAq_W : Vec3
  traction_Aq_W : Vec3
deriving DecidableEq

structure lcmt_hydroelastic_contact_surface_for_viz where
  body1_name : String
  body2_name : String
  num_triangles : Int
  triangles : List lcmt_hydroelastic_contact_surface_tri_for_viz
  centroid_W : Vec3
  num_quadrature_points : Int
  quadrature_point_data : List lcmt_hydroelastic_quadrature_per_point_data_for_viz
  force_C_W : Vec3
  moment_C_W : Vec3
deriving DecidableEq

structure lcmt_point_pair_contact_info_for_viz where
  timestamp : Int
  body1_name : String
  body2_name : String
  contact_point : Vec3
  contact_force : Vec3
  normal : Vec3
deriving DecidableEq

structure lcmt_contact_results_for_viz where
  timestamp : Int
  num_point_pair_contacts : Int
  point_pair_contact_info : List lcmt_point_pair_contact_info_for_viz
  num_hydroelastic_contacts : Int
  hydroelastic_contacts : List lcmt_hydroelastic_contact_surface_for_viz
deriving DecidableEq

/-- The surfaces sequence the encoder iterates: the strict engine call when
use_strict_hydro is set, the fallback call result otherwise. -/
def QuerySurfaces (use_strict_hydro : Bool) (query_object : QueryObject) :
    List ContactSurface :=
  if use_strict_hydro then query_object.ComputeContactSurfaces
  else query_object.ComputeContactSurfacesWithFallback.1

/-- The point-pair sequence the encoder iterates: left empty in strict mode,
filled by the fallback call otherwise. -/
def QueryPoints (use_strict_hydro : Bool) (query_object : QueryObject) :
    List PenetrationAsPointPair :=
  if use_strict_hydro then []
  else query_object.ComputeContactSurfacesWithFallback.2

/-- One triangle record of the surface message: the three referenced vertex
positions copied verbatim and the pressure field evaluated at the three
vertex indices. -/
def EncodeTriangle (s : ContactSurface) (j : Nat) :
    lcmt_hydroelastic_contact_surface_tri_for_viz :=
  let face := s.mesh_W.elements.getD j (0, 0, 0)
  let vA := s.mesh_W.vertices.getD face.1 ⟨0, 0, 0⟩
  let vB := s.mesh_W.vertices.getD face.2.1 ⟨0, 0, 0⟩
  let vC := s.mesh_W.vertices.getD face.2.2 ⟨0, 0, 0⟩
  { p_WA := vA
    p_WB := vB
    p_WC := vC
    pressure_A := s.e_MN face.1
    pressure_B := s.e_MN face.2.1
    pressure_C := s.e_MN face.2.2 }

/-- One quadrature record of the surface message: the quadrature point is the
mean of the three vertex positions of face j, and the slip and traction
vectors are the fixed placeholder constants of the source. -/
def EncodeQuadrature (s : ContactSurface) (j : Nat) :
    lcmt_hydroelastic_quadrature_per_point_data_for_viz :=
  let face := s.mesh_W.elements.getD j (0, 0, 0)
  let vA := s.mesh_W.vertices.getD face.1 ⟨0, 0, 0⟩
  let vB := s.mesh_W.vertices.getD face.2.1 ⟨0, 0, 0⟩
  let vC := s.mesh_W.vertices.getD face.2.2 ⟨0, 0, 0⟩
  { p_WQ := vdiv (vadd (vadd vA vB) vC) 3
    vt_BqAq_W := ⟨0, 0.2, 0⟩
    traction_Aq_W := ⟨0, -0.2, 0⟩ }

/-- The per-surface encoding loop body: body names derived from the two
geometry identifiers, the triangle count narrowed to int32, the triangle and
quadrature arrays resized to that count and filled in face order, and the
fixed placeholder force and moment vectors. A negative narrowed count makes
the C++ resize throw, modelled as none. -/
def EncodeSurface (s : ContactSurface) :
    Option lcmt_hydroelastic_contact_surface_for_viz :=
  let num_triangles := int32ofNat s.mesh_W.elements.length
  if num_triangles < 0 then none
  else some
    { body1_name := "Id_" ++ Nat.repr s.id_M
      body2_name := "Id_" ++ Nat.repr s.id_N
      num_triangles := num_triangles
      triangles := (List.range num_triangles.toNat).map (EncodeTriangle s)
      centroid_W := s.mesh_W.centroid
      num_quadrature_points := num_triangles
      quadrature_point_data :=
        (List.range num_triangles.toNat).map (EncodeQuadrature s)
      force_C_W := ⟨1, 0, 0⟩
      moment_C_W := ⟨0, 0, 1⟩ }

def EncodeSurfaceList :
    List ContactSurface → Option (List lcmt_hydroelastic_contact_surface_for_viz)
  | [] => some []
  | s :: rest =>
    match EncodeSurface s, EncodeSurfaceList rest with
    | some r, some rs => some (r :: rs)
    | _, _ => none

/-- The value a point-pair record holds right after the resize of the message
array creates it zero-filled: empty strings and zeroed numeric fields. -/
def default_point_pair_info : lcmt_point_pair_contact_info_for_viz :=
  { timestamp := 0
    body1_name := ""
    body2_name := ""
    contact_point := ⟨0, 0, 0⟩
    contact_force := ⟨0, 0, 0⟩
    normal := ⟨0, 0, 0⟩ }

/-- The per-pair encoding loop body, as the sequential field assignments of
the source perform it: the timestamp copy, then two successive assignments to
body1_name (first the name of id_A, then the name of id_B, the second
overwriting the first; body2_name is never assigned), then the midpoint
contact point, and the pair normal written to both contact_force and
normal. -/
def EncodePointPair (GetName : Nat → String) (msg_timestamp : Int)
    (pair : PenetrationAsPointPair) : lcmt_point_pair_contact_info_for_viz :=
  let info0 := default_point_pair_info
  let info1 := { info0 with timestamp := msg_timestamp }
  let info2 := { info1 with body1_name := GetName pair.id_A }
  let info3 := { info2 with body1_name := GetName pair.id_B }
  let contact_point := vdiv (vadd pair.p_WCa pair.p_WCb) 2
  let info4 := { info3 with contact_point := contact_point }
  let info5 := { info4 with contact_force := pair.nhat_BA_W }
  { info5 with normal := pair.nhat_BA_W }

/-- ContactResultMaker::CalcContactResults: query the engine in the selected
mode, narrow both sequence sizes to int32, resize the two message arrays
(none when a narrowed count is negative, where the C++ resize throws), write
the truncated microsecond timestamp, and fill both arrays in order. -/
def CalcContactResults (use_strict_hydro : Bool) (query_object : QueryObject)
    (time : ℚ) : Option lcmt_contact_results_for_viz :=
  let surfaces := QuerySurfaces use_strict_hydro query_object
  let points := QueryPoints use_strict_hydro query_object
  let num_surfaces := int32ofNat surfaces.length
  let num_pairs := int32ofNat points.length
  let ts := ratTrunc (time * 1000000)
  if num_pairs < 0 then none
  else if num_surfaces < 0 then none
  else
    match EncodeSurfaceList (surfaces.take num_surfaces.toNat) with
    | none => none
    | some hydro =>
      some
        { timestamp := ts
          num_point_pair_contacts := num_pairs
          point_pair_contact_info :=
            (points.take num_pairs.toNat).map
              (EncodePointPair query_object.GetName ts)
          num_hydroelastic_contacts := num_surfaces
          hydroelastic_contacts := hydro }

/-- A sequence of independent invocations of the encoder, one message per
scheduler tick. -/
def RunPipeline (calls : List (Bool × QueryObject × ℚ)) :
    List (Option lcmt_contact_results_for_viz) :=
  calls.map (fun c => CalcContactResults c.1 c.2.1 c.2.2)

/-- A query snapshot with no contacts at all. -/
def emptyQuery : QueryObject :=
  { ComputeContactSurfaces := []
    ComputeContactSurfacesWithFallback := ([], [])
    GetName := fun _ => "" }

/-- The one-triangle mesh of scenario B of the specification. -/
def scenarioB_mesh : TriangleSurfaceMesh :=
  { vertices := [⟨0, 0, 0⟩, ⟨1, 0, 0⟩, ⟨0, 1, 0⟩]
    elements := [(0, 1, 2)]
    centroid := ⟨1/3, 1/3, 0⟩ }

/-- The pressure field of scenario B: 10, 20, 30 at vertex indices 0, 1, 2. -/
def scenarioB_field (i : Nat) : ℚ := if i = 0 then 10 else if i = 1 then 20 else 30

def scenarioB_surface : ContactSurface :=
  { id_M := 1, id_N := 2, mesh_W := scenarioB_mesh, e_MN := scenarioB_field }

/-- The point pair of scenario C of the specification, between the distinct
bodies 1 and 2. -/
def scenarioC_pair : PenetrationAsPointPair :=
  { id_A := 1, id_B := 2, p_WCa := ⟨0, 0, 1⟩, p_WCb := ⟨0, 0, 0.8⟩,
    nhat_BA_W := ⟨0, 0, 1⟩, depth := 0.2 }

/-- A body-name resolver that gives the two bodies of the demo pair the
distinct names "ball" and "box". -/
def demo_lookup (i : Nat) : String :=
  if i = 1 then "ball" else if i = 2 then "box" else "other"

/-- A fallback-mode query snapshot holding one point pair and no surfaces. -/
def onePairQuery : QueryObject :=
  { ComputeContactSurfaces := []
    ComputeContactSurfacesWithFallback := ([], [scenarioC_pair])
    GetName := demo_lookup }

/-- The record EncodeSurface produces on the scenario B surface. -/
def scenarioB_record : lcmt_hydroelastic_contact_surface_for_viz :=
  { body1_name := "Id_1"
    body2_name := "Id_2"
    num_triangles := 1
    triangles := [{ p_WA := ⟨0, 0, 0⟩, p_WB := ⟨1, 0, 0⟩, p_WC := ⟨0, 1, 0⟩,
                    pressure_A := 10, pressure_B := 20, pressure_C := 30 }]
    centroid_W := ⟨1/3, 1/3, 0⟩
    num_quadrature_points := 1
    quadrature_point_data := [{ p_WQ := ⟨1/3, 1/3, 0⟩, vt_BqAq_W := ⟨0, 0.2, 0⟩,
                                traction_Aq_W := ⟨0, -0.2, 0⟩ }]
    force_C_W := ⟨1, 0, 0⟩
    moment_C_W := ⟨0, 0, 1⟩ }

/-- The message produced on the empty snapshot at time zero. -/
def emptyMsg : lcmt_contact_results_for_viz :=
  { timestamp := 0
    num_point_pair_contacts := 0
    point_pair_contact_info := []
    num_hydroelastic_contacts := 0
    hydroelastic_contacts := [] }

/-- The message produced on the one-pair fallback snapshot at time zero. -/
def onePairMsg : lcmt_contact_results_for_viz :=
  { timestamp := 0
    num_point_pair_contacts := 1
    point_pair_contact_info := [EncodePointPair demo_lookup 0 scenarioC_pair]
    num_hydroelastic_contacts := 0
    hydroelastic_contacts := [] }

/-- Two identical invocations of the pipeline. -/
def twoCalls : List (Bool × QueryObject × ℚ) :=
  [(true, emptyQuery, 0), (true, emptyQuery, 0)]

theorem int32ofNat_toNat_le (n : Nat) : (int32ofNat n).toNat ≤ n := by
  rw [int32ofNat]; split <;> omega

theorem int32ofNat_eq_of_le {n : Nat} (h : n ≤ 2147483647) : int32ofNat n = (n : Int) := by
  rw [int32ofNat]; split <;> omega

theorem int32ofNat_ne_of_gt {n : Nat} (h : 2147483647 < n) : int32ofNat n ≠ (n : Int) := by
  rw [int32ofNat]; split <;> omega

theorem ratTrunc_eq_floor {x : ℚ} (h : 0 ≤ x) : ratTrunc x = ⌊x⌋ := by
  rw [Rat.floor_def, ratTrunc]
  exact Int.tdiv_eq_ediv (Rat.num_nonneg.mpr h) (Int.ofNat_nonneg _)

theorem EncodeSurface_inv {s : ContactSurface}
    {r : lcmt_hydroelastic_contact_surface_for_viz}
    (h : EncodeSurface s = some r) :
    0 ≤ int32ofNat s.mesh_W.elements.length ∧
    r = { body1_name := "Id_" ++ Nat.repr s.id_M
          body2_name := "Id_" ++ Nat.repr s.id_N
          num_triangles := int32ofNat s.mesh_W.elements.length
          triangles := (List.range (int32ofNat s.mesh_W.elements.length).toNat).map
            (EncodeTriangle s)
          centroid_W := s.mesh_W.centroid
          num_quadrature_points := int32ofNat s.mesh_W.elements.length
          quadrature_point_data :=
            (List.range (int32ofNat s.mesh_W.elements.length).toNat).map
              (EncodeQuadrature s)
          force_C_W := ⟨1, 0, 0⟩
          moment_C_W := ⟨0, 0, 1⟩ } := by
  simp only [EncodeSurface] at h
  split at h
  · exact absurd h (by simp)
  · exact ⟨by omega, (Option.some.inj h).symm⟩

theorem EncodeSurfaceList_inv :
    ∀ {l : List ContactSurface} {rs : List lcmt_hydroelastic_contact_surface_for_viz},
      EncodeSurfaceList l = some rs →
      rs.length = l.length ∧ ∀ r ∈ rs, ∃ s ∈ l, EncodeSurface s = some r
  | [], rs, h => by
    simp only [EncodeSurfaceList, Option.some.injEq] at h
    subst h
    simp
  | s :: rest, rs, h => by
    unfold EncodeSurfaceList at h
    cases hs : EncodeSurface s with
    | none => rw [hs] at h; exact absurd h (by simp)
    | some r =>
      cases hrest : EncodeSurfaceList rest with
      | none => rw [hs, hrest] at h; exact absurd h (by simp)
      | some rs2 =>
        rw [hs, hrest] at h
        obtain ⟨hlen, hmem⟩ := EncodeSurfaceList_inv hrest
        cases Option.some.inj h
        refine ⟨by simpa using hlen, ?_⟩
        intro r2 hr2
        rcases List.mem_cons.mp hr2 with h1 | h1
        · exact ⟨s, List.mem_cons_self s rest, h1 ▸ hs⟩
        · obtain ⟨s2, hs2, he2⟩ := hmem r2 h1
          exact ⟨s2, List.mem_cons_of_mem s hs2, he2⟩

theorem CalcContactResults_inv {strict : Bool} {q : QueryObject} {t : ℚ}
    {msg : lcmt_contact_results_for_viz}
    (h : CalcContactResults strict q t = some msg) :
    ∃ hydro,
      0 ≤ int32ofNat (QueryPoints strict q).length ∧
      0 ≤ int32ofNat (QuerySurfaces strict q).length ∧
      EncodeSurfaceList ((QuerySurfaces strict q).take
        (int32ofNat (QuerySurfaces strict q).length).toNat) = some hydro ∧
      msg = { timestamp := ratTrunc (t * 1000000)
              num_point_pair_contacts := int32ofNat (QueryPoints strict q).length
              point_pair_contact_info := ((QueryPoints strict q).take
                (int32ofNat (QueryPoints strict q).length).toNat).map
                (EncodePointPair q.GetName (ratTrunc (t * 1000000)))
              num_hydroelastic_contacts := int32ofNat (QuerySurfaces strict q).length
              hydroelastic_contacts := hydro } := by
  simp only [CalcContactResults] at h
  split at h
  · exact absurd h (by simp)
  · split at h
    · exact absurd h (by simp)
    · split at h
      · exact absurd h (by simp)
      · rename_i hneg1 hneg2 hydro hE
        exact ⟨hydro, by omega, by omega, hE, (Option.some.inj h).symm⟩

theorem calc_empty : CalcContactResults true emptyQuery 0 = some emptyMsg := by
  norm_num [CalcContactResults, QuerySurfaces, QueryPoints, emptyQuery, int32ofNat,
    ratTrunc, EncodeSurfaceList, emptyMsg]

theorem calc_onePair : CalcContactResults false onePairQuery 0 = some onePairMsg := by
  norm_num [CalcContactResults, QuerySurfaces, QueryPoints, onePairQuery, int32ofNat,
    ratTrunc, EncodeSurfaceList, onePairMsg]

theorem encode_scenarioB : EncodeSurface scenarioB_surface = some scenarioB_record := by
  norm_num [EncodeSurface, EncodeTriangle, EncodeQuadrature, scenarioB_surface,
    scenarioB_mesh, scenarioB_field, int32ofNat, vadd, vdiv, List.range_succ,
    scenarioB_record]
  refine ⟨by decide, by decide⟩

/-- Claim C1, evaluated on the code as written: for the pair between the
distinct bodies 1 and 2, whose names resolve to the distinct strings "ball"
and "box", the encoder writes the name resolved for the second body (id_B)
into body1_name, overwriting the name of the first body, and leaves
body2_name at its default empty value. The two identifiers are therefore not
assigned to distinct fields and the record does not hold two distinct
non-equal body names, contradicting the claim. -/
theorem c1_name_resolution_defect :
    demo_lookup scenarioC_pair.id_A = "ball" ∧
    demo_lookup scenarioC_pair.id_B = "box" ∧
    (EncodePointPair demo_lookup 0 scenarioC_pair).body1_name = "box" ∧
    (EncodePointPair demo_lookup 0 scenarioC_pair).body2_name = "" :=
  ⟨by decide, by decide, by decide, by decide⟩

/-- Claim C9: the point-pair encoder leaves body2_name at its
default zero-filled value, ends with the name resolved for the
second body of the pair (id_B) in body1_name, and besides body1_name only
assigns timestamp, contact_point, contact_force and normal. -/
theorem c9_point_pair_frame_effect (GetName : Nat → String) (ts : Int)
    (pair : PenetrationAsPointPair) :
    (EncodePointPair GetName ts pair).body2_name = default_point_pair_info.body2_name ∧
    (EncodePointPair GetName ts pair).body1_name = GetName pair.id_B ∧
    (EncodePointPair GetName ts pair).timestamp = ts ∧
    (EncodePointPair GetName ts pair).contact_point = vdiv (vadd pair.p_WCa pair.p_WCb) 2 ∧
    (EncodePointPair GetName ts pair).contact_force = pair.nhat_BA_W ∧
    (EncodePointPair GetName ts pair).normal = pair.nhat_BA_W :=
  ⟨rfl, rfl, rfl, rfl, rfl, rfl⟩

/-- Claim C5: every encoded point-pair record carries the message timestamp,
the midpoint of the two near-points as contact point, and the pair normal in
both the contact_force and normal fields; on the concrete scenario C pair the
contact point is (0, 0, 0.9) and both vectors are (0, 0, 1). -/
theorem c5_point_pair_record :
    (∀ (GetName : Nat → String) (ts : Int) (pair : PenetrationAsPointPair),
      (EncodePointPair GetName ts pair).timestamp = ts ∧
      (EncodePointPair GetName ts pair).contact_point =
        vdiv (vadd pair.p_WCa pair.p_WCb) 2 ∧
      (EncodePointPair GetName ts pair).contact_force = pair.nhat_BA_W ∧
      (EncodePointPair GetName ts pair).normal = pair.nhat_BA_W) ∧
    (∀ (strict : Bool) (q : QueryObject) (t : ℚ)
       (msg : lcmt_contact_results_for_viz),
      CalcContactResults strict q t = some msg →
      ∀ r ∈ msg.point_pair_contact_info, r.timestamp = msg.timestamp) ∧
    ((EncodePointPair demo_lookup 0 scenarioC_pair).contact_point = ⟨0, 0, 0.9⟩ ∧
     (EncodePointPair demo_lookup 0 scenarioC_pair).contact_force = ⟨0, 0, 1⟩ ∧
     (EncodePointPair demo_lookup 0 scenarioC_pair).normal = ⟨0, 0, 1⟩) := by
  refine ⟨fun GetName ts pair => ⟨rfl, rfl, rfl, rfl⟩, ?_, ?_, rfl, rfl⟩
  · intro strict q t msg h r hr
    obtain ⟨hydro, -, -, -, rfl⟩ := CalcContactResults_inv h
    obtain ⟨p, -, rfl⟩ := List.mem_map.mp hr
    rfl
  · norm_num [EncodePointPair, scenarioC_pair, vadd, vdiv, default_point_pair_info]

/-- Witness for claim C5: on the concrete fallback snapshot holding the
scenario C pair, the single encoded record carries the message timestamp. -/
theorem c5_witness :
    CalcContactResults false onePairQuery 0 = some onePairMsg ∧
    (EncodePointPair demo_lookup 0 scenarioC_pair).timestamp = onePairMsg.timestamp :=
  ⟨calc_onePair,
   c5_point_pair_record.2.1 false onePairQuery 0 onePairMsg calc_onePair
     (EncodePointPair demo_lookup 0 scenarioC_pair)
     (List.mem_cons_self _ _)⟩

/-- Claim C7: the per-triangle slip and traction vectors and the per-surface
force and moment vectors of every encoded surface are the fixed constants
(0, 0.2, 0), (0, -0.2, 0), (1, 0, 0) and (0, 0, 1), independent of the
surface. -/
theorem c7_placeholder_constants (s : ContactSurface)
    (r : lcmt_hydroelastic_contact_surface_for_viz)
    (h : EncodeSurface s = some r) :
    r.force_C_W = ⟨1, 0, 0⟩ ∧ r.moment_C_W = ⟨0, 0, 1⟩ ∧
    ∀ qd ∈ r.quadrature_point_data,
      qd.vt_BqAq_W = ⟨0, 0.2, 0⟩ ∧ qd.traction_Aq_W = ⟨0, -0.2, 0⟩ := by
  obtain ⟨-, rfl⟩ := EncodeSurface_inv h
  refine ⟨rfl, rfl, ?_⟩
  intro qd hqd
  obtain ⟨j, -, rfl⟩ := List.mem_map.mp hqd
  exact ⟨rfl, rfl⟩

/-- Witness for claim C7: the scenario B surface encodes successfully and its
record carries the placeholder force and moment constants. -/
theorem c7_witness :
    EncodeSurface scenarioB_surface = some scenarioB_record ∧
    scenarioB_record.force_C_W = ⟨1, 0, 0⟩ ∧
    scenarioB_record.moment_C_W = ⟨0, 0, 1⟩ :=
  ⟨encode_scenarioB,
   (c7_placeholder_constants scenarioB_surface scenarioB_record encode_scenarioB).1,
   (c7_placeholder_constants scenarioB_surface scenarioB_record encode_scenarioB).2.1⟩

/-- Counterexample to claim C2: at simulation time 3/2000000 seconds
(1.5 microseconds) the assembled message carries timestamp 1, while rounding
to the nearest integer microsecond would give 2; the code truncates the
product toward zero instead of rounding it. -/
theorem c2_round_counterexample :
    (CalcContactResults true emptyQuery (3/2000000)).map
      lcmt_contact_results_for_viz.timestamp = some 1 ∧
    round ((3/2000000 : ℚ) * 1000000) = 2 := by
  constructor
  · have h : ((3 : ℚ)/2000000) * 1000000 = 3/2 := by norm_num
    norm_num [CalcContactResults, QuerySurfaces, QueryPoints, emptyQuery,
      int32ofNat, EncodeSurfaceList, h, ratTrunc]
    decide
  · rw [round_eq]; norm_num

/-- Claim C2 as amended: for every non-negative simulation time, the
assembled message timestamp is the floor (truncation toward zero, which
agrees with the floor on non-negative values) of the time multiplied by
1000000, not the value rounded to the nearest integer. -/
theorem c2_timestamp_truncation (strict : Bool) (q : QueryObject) (t : ℚ)
    (ht : 0 ≤ t) (msg : lcmt_contact_results_for_viz)
    (h : CalcContactResults strict q t = some msg) :
    msg.timestamp = ⌊t * 1000000⌋ := by
  obtain ⟨hydro, -, -, -, rfl⟩ := CalcContactResults_inv h
  exact ratTrunc_eq_floor (by positivity)

/-- Witness for the amended claim C2: at time zero the message exists and its
timestamp is the floor of zero microseconds. -/
theorem c2_witness :
    (0 : ℚ) ≤ 0 ∧ CalcContactResults true emptyQuery 0 = some emptyMsg ∧
    emptyMsg.timestamp = ⌊(0 : ℚ) * 1000000⌋ :=
  ⟨le_rfl, calc_empty, c2_timestamp_truncation true emptyQuery 0 le_rfl emptyMsg calc_empty⟩

/-- Claim C3: in every assembled message the two message-level count fields
equal the lengths of their arrays; in every surface record the triangle
count, the triangle array length, the quadrature array length and the
quadrature count all agree; and with no contacts both message counts are 0
and both arrays are empty. -/
theorem c3_counts_match (strict : Bool) (q : QueryObject) (t : ℚ)
    (msg : lcmt_contact_results_for_viz)
    (h : CalcContactResults strict q t = some msg) :
    (msg.num_point_pair_contacts = (msg.point_pair_contact_info.length : Int) ∧
     msg.num_hydroelastic_contacts = (msg.hydroelastic_contacts.length : Int)) ∧
    (∀ r ∈ msg.hydroelastic_contacts,
      r.num_triangles = (r.triangles.length : Int) ∧
      r.triangles.length = r.quadrature_point_data.length ∧
      r.num_quadrature_points = r.num_triangles) ∧
    (QuerySurfaces strict q = [] → QueryPoints strict q = [] →
      msg.num_hydroelastic_contacts = 0 ∧ msg.hydroelastic_contacts = [] ∧
      msg.num_point_pair_contacts = 0 ∧ msg.point_pair_contact_info = []) := by
  obtain ⟨hydro, h1, h2, hE, rfl⟩ := CalcContactResults_inv h
  obtain ⟨hlen, hmem⟩ := EncodeSurfaceList_inv hE
  refine ⟨⟨?_, ?_⟩, ?_, ?_⟩
  · simp only [List.length_map, List.length_take]
    rw [min_eq_left (int32ofNat_toNat_le _), Int.toNat_of_nonneg h1]
  · simp only [hlen, List.length_take]
    rw [min_eq_left (int32ofNat_toNat_le _), Int.toNat_of_nonneg h2]
  · intro r hr
    obtain ⟨s, -, hs⟩ := hmem r hr
    obtain ⟨h0, rfl⟩ := EncodeSurface_inv hs
    refine ⟨?_, by simp, rfl⟩
    simp only [List.length_map, List.length_range]
    rw [Int.toNat_of_nonneg h0]
  · intro hs hp
    rw [hs] at hE ⊢
    rw [hp]
    simp only [List.take_nil, List.map_nil, List.length_nil]
    simp only [List.take_nil, EncodeSurfaceList, Option.some.injEq] at hE
    subst hE
    norm_num [int32ofNat]

/-- Witness for claim C3: on the empty snapshot the message exists, its
counts equal its array lengths, and both counts are zero with both arrays
empty. -/
theorem c3_witness :
    CalcContactResults true emptyQuery 0 = some emptyMsg ∧
    (emptyMsg.num_point_pair_contacts =
       (emptyMsg.point_pair_contact_info.length : Int) ∧
     emptyMsg.num_hydroelastic_contacts =
       (emptyMsg.hydroelastic_contacts.length : Int)) ∧
    (emptyMsg.num_hydroelastic_contacts = 0 ∧ emptyMsg.hydroelastic_contacts = [] ∧
     emptyMsg.num_point_pair_contacts = 0 ∧ emptyMsg.point_pair_contact_info = []) :=
  ⟨calc_empty, (c3_counts_match true emptyQuery 0 emptyMsg calc_empty).1,
   (c3_counts_match true emptyQuery 0 emptyMsg calc_empty).2.2 rfl rfl⟩

/-- Claim C4: for every well-formed contact surface (triangle count within
int32 range, face indices in bounds) and every face index j, the j-th output
triangle record holds the three referenced vertex positions verbatim and the
pressure field evaluated exactly at the three vertex indices, and the j-th
quadrature record holds as its point the arithmetic mean of the three vertex
positions (the triangle centroid), with no triangle dropped or reordered. -/
theorem c4_triangle_encoding (s : ContactSurface)
    (r : lcmt_hydroelastic_contact_surface_for_viz)
    (j a b c : Nat) (vA vB vC : Vec3)
    (hr : EncodeSurface s = some r)
    (hlen : s.mesh_W.elements.length ≤ 2147483647)
    (hj : j < s.mesh_W.elements.length)
    (hface : s.mesh_W.elements[j]? = some (a, b, c))
    (hvA : s.mesh_W.vertices[a]? = some vA)
    (hvB : s.mesh_W.vertices[b]? = some vB)
    (hvC : s.mesh_W.vertices[c]? = some vC) :
    r.triangles[j]? = some
      { p_WA := vA, p_WB := vB, p_WC := vC,
        pressure_A := s.e_MN a, pressure_B := s.e_MN b, pressure_C := s.e_MN c } ∧
    r.quadrature_point_data[j]? = some
      { p_WQ := vdiv (vadd (vadd vA vB) vC) 3,
        vt_BqAq_W := ⟨0, 0.2, 0⟩, traction_Aq_W := ⟨0, -0.2, 0⟩ } := by
  obtain ⟨h0, rfl⟩ := EncodeSurface_inv hr
  have htn : (int32ofNat s.mesh_W.elements.length).toNat = s.mesh_W.elements.length := by
    rw [int32ofNat_eq_of_le hlen]
    exact Int.toNat_natCast _
  have hjr : j < (int32ofNat s.mesh_W.elements.length).toNat := by rw [htn]; exact hj
  constructor
  · simp only [List.getElem?_map, List.getElem?_range hjr, Option.map_some',
      Option.some.injEq]
    simp only [EncodeTriangle, List.getD_eq_getElem?_getD, hface, Option.getD_some,
      hvA, hvB, hvC]
  · simp only [List.getElem?_map, List.getElem?_range hjr, Option.map_some',
      Option.some.injEq]
    simp only [EncodeQuadrature, List.getD_eq_getElem?_getD, hface, Option.getD_some,
      hvA, hvB, hvC]

/-- Witness for claim C4: the scenario B surface (vertices (0,0,0), (1,0,0),
(0,1,0) with pressures 10, 20, 30 at indices 0, 1, 2) encodes to a record
whose only triangle holds the three vertices and pressures verbatim and
whose quadrature point is the centroid (1/3, 1/3, 0). -/
theorem c4_witness :
    EncodeSurface scenarioB_surface = some scenarioB_record ∧
    scenarioB_surface.mesh_W.elements.length ≤ 2147483647 ∧
    0 < scenarioB_surface.mesh_W.elements.length ∧
    scenarioB_surface.mesh_W.elements[0]? = some (0, 1, 2) ∧
    scenarioB_surface.mesh_W.vertices[0]? = some ⟨0, 0, 0⟩ ∧
    scenarioB_surface.mesh_W.vertices[1]? = some ⟨1, 0, 0⟩ ∧
    scenarioB_surface.mesh_W.vertices[2]? = some ⟨0, 1, 0⟩ ∧
    scenarioB_record.triangles[0]? = some
      { p_WA := ⟨0, 0, 0⟩, p_WB := ⟨1, 0, 0⟩, p_WC := ⟨0, 1, 0⟩,
        pressure_A := scenarioB_surface.e_MN 0, pressure_B := scenarioB_surface.e_MN 1,
        pressure_C := scenarioB_surface.e_MN 2 } ∧
    scenarioB_record.quadrature_point_data[0]? = some
      { p_WQ := vdiv (vadd (vadd ⟨0, 0, 0⟩ ⟨1, 0, 0⟩) ⟨0, 1, 0⟩) 3,
        vt_BqAq_W := ⟨0, 0.2, 0⟩, traction_Aq_W := ⟨0, -0.2, 0⟩ } ∧
    vdiv (vadd (vadd ⟨0, 0, 0⟩ ⟨1, 0, 0⟩) ⟨0, 1, 0⟩) 3 = ⟨1/3, 1/3, 0⟩ ∧
    scenarioB_surface.e_MN 0 = 10 ∧ scenarioB_surface.e_MN 1 = 20 ∧
    scenarioB_surface.e_MN 2 = 30 :=
  ⟨encode_scenarioB, by norm_num [scenarioB_surface, scenarioB_mesh],
   by norm_num [scenarioB_surface, scenarioB_mesh], rfl, rfl, rfl, rfl,
   (c4_triangle_encoding scenarioB_surface scenarioB_record 0 0 1 2
      ⟨0, 0, 0⟩ ⟨1, 0, 0⟩ ⟨0, 1, 0⟩ encode_scenarioB
      (by norm_num [scenarioB_surface, scenarioB_mesh])
      (by norm_num [scenarioB_surface, scenarioB_mesh]) rfl rfl rfl rfl).1,
   (c4_triangle_encoding scenarioB_surface scenarioB_record 0 0 1 2
      ⟨0, 0, 0⟩ ⟨1, 0, 0⟩ ⟨0, 1, 0⟩ encode_scenarioB
      (by norm_num [scenarioB_surface, scenarioB_mesh])
      (by norm_num [scenarioB_surface, scenarioB_mesh]) rfl rfl rfl rfl).2,
   by norm_num [vadd, vdiv], by decide, by decide, by decide⟩

/-- Claim C6: in strict mode the encoder reads only the result of the pure
hydroelastic contact-surface computation (the message is unchanged under any
change of the fallback data and of the name resolver) and the point-pair
sequence of the message is empty with a zero count; in fallback mode the
encoder reads only the fallback computation and the name resolver, and the
message draws its point pairs from the fallback pair sequence and its surface
records from the fallback surface sequence. -/
theorem c6_adapter_modes :
    (∀ (q : QueryObject) (t : ℚ) (msg : lcmt_contact_results_for_viz),
       CalcContactResults true q t = some msg →
       msg.num_point_pair_contacts = 0 ∧ msg.point_pair_contact_info = []) ∧
    (∀ (q q2 : QueryObject) (t : ℚ),
       q.ComputeContactSurfaces = q2.ComputeContactSurfaces →
       CalcContactResults true q t = CalcContactResults true q2 t) ∧
    (∀ (q q2 : QueryObject) (t : ℚ),
       q.ComputeContactSurfacesWithFallback = q2.ComputeContactSurfacesWithFallback →
       q.GetName = q2.GetName →
       CalcContactResults false q t = CalcContactResults false q2 t) ∧
    (∀ (q : QueryObject) (t : ℚ) (msg : lcmt_contact_results_for_viz),
       CalcContactResults false q t = some msg →
       msg.point_pair_contact_info =
         (q.ComputeContactSurfacesWithFallback.2.take
           (int32ofNat q.ComputeContactSurfacesWithFallback.2.length).toNat).map
           (EncodePointPair q.GetName msg.timestamp) ∧
       EncodeSurfaceList (q.ComputeContactSurfacesWithFallback.1.take
           (int32ofNat q.ComputeContactSurfacesWithFallback.1.length).toNat) =
         some msg.hydroelastic_contacts) := by
  refine ⟨?_, ?_, ?_, ?_⟩
  · intro q t msg h
    obtain ⟨hydro, -, -, -, rfl⟩ := CalcContactResults_inv h
    exact ⟨rfl, rfl⟩
  · intro q q2 t h
    simp only [CalcContactResults, QuerySurfaces, QueryPoints, h]
    simp
  · intro q q2 t h1 h2
    simp only [CalcContactResults, QuerySurfaces, QueryPoints, h1, h2]
    simp
  · intro q t msg h
    obtain ⟨hydro, -, -, hE, rfl⟩ := CalcContactResults_inv h
    exact ⟨rfl, hE⟩

/-- Witness for claim C6: a strict-mode run on the empty snapshot has a zero
pair count and an empty pair array; strict-mode output is unchanged when the
strict surface list agrees; fallback output is unchanged when the fallback
data and resolver agree; and a fallback run on the one-pair snapshot draws
its single record from the fallback pair sequence. -/
theorem c6_witness :
    CalcContactResults true emptyQuery 0 = some emptyMsg ∧
    (emptyMsg.num_point_pair_contacts = 0 ∧ emptyMsg.point_pair_contact_info = []) ∧
    CalcContactResults true emptyQuery 0 = CalcContactResults true emptyQuery 0 ∧
    CalcContactResults false onePairQuery 0 = CalcContactResults false onePairQuery 0 ∧
    CalcContactResults false onePairQuery 0 = some onePairMsg ∧
    onePairMsg.point_pair_contact_info =
      (onePairQuery.ComputeContactSurfacesWithFallback.2.take
        (int32ofNat onePairQuery.ComputeContactSurfacesWithFallback.2.length).toNat).map
        (EncodePointPair onePairQuery.GetName onePairMsg.timestamp) :=
  ⟨calc_empty, c6_adapter_modes.1 emptyQuery 0 emptyMsg calc_empty,
   c6_adapter_modes.2.1 emptyQuery emptyQuery 0 rfl,
   c6_adapter_modes.2.2.1 onePairQuery onePairQuery 0 rfl rfl,
   calc_onePair,
   (c6_adapter_modes.2.2.2 onePairQuery 0 onePairMsg calc_onePair).1⟩

/-- Claim C8: the pipeline is a pure function of the inputs of each invocation:
across any two invocation histories, positions holding the same snapshot and
time produce identical messages, so repeated encoding of the same immutable
snapshot yields identical output with no dependence on prior invocations. -/
theorem c8_pure_stateless (calls calls2 : List (Bool × QueryObject × ℚ))
    (i j : Nat) (h : calls[i]? = calls2[j]?) :
    (RunPipeline calls)[i]? = (RunPipeline calls2)[j]? := by
  simp only [RunPipeline, List.getElem?_map, h]

/-- Witness for claim C8: in a history of two identical invocations, both
positions yield the same output. -/
theorem c8_witness :
    twoCalls[0]? = twoCalls[1]? ∧
    (RunPipeline twoCalls)[0]? = (RunPipeline twoCalls)[1]? :=
  ⟨rfl, c8_pure_stateless twoCalls twoCalls 0 1 rfl⟩

/-- Claim C10: every message count field is the int32 narrowing of the length
of the sequence it counts, the per-surface triangle count is the int32
narrowing of the mesh face count, the narrowing is the identity exactly on
lengths up to 2147483647, and on larger lengths the narrowed value differs
from the true length. -/
theorem c10_int32_narrowing :
    (∀ (strict : Bool) (q : QueryObject) (t : ℚ)
       (msg : lcmt_contact_results_for_viz),
       CalcContactResults strict q t = some msg →
       msg.num_hydroelastic_contacts = int32ofNat (QuerySurfaces strict q).length ∧
       msg.num_point_pair_contacts = int32ofNat (QueryPoints strict q).length) ∧
    (∀ (s : ContactSurface) (r : lcmt_hydroelastic_contact_surface_for_viz),
       EncodeSurface s = some r →
       r.num_triangles = int32ofNat s.mesh_W.elements.length) ∧
    (∀ n : Nat, n ≤ 2147483647 → int32ofNat n = (n : Int)) ∧
    (∀ n : Nat, 2147483647 < n → int32ofNat n ≠ (n : Int)) := by
  refine ⟨?_, ?_, ?_, ?_⟩
  · intro strict q t msg h
    obtain ⟨hydro, -, -, -, rfl⟩ := CalcContactResults_inv h
    exact ⟨rfl, rfl⟩
  · intro s r h
    obtain ⟨-, rfl⟩ := EncodeSurface_inv h
    rfl
  · intro n h
    exact int32ofNat_eq_of_le h
  · intro n h
    exact int32ofNat_ne_of_gt h

/-- Witness for claim C10: the empty-snapshot message counts are the
narrowing of the empty lengths, the triangle count of the scenario B record is
the narrowing of its face count, narrowing is the identity at 1, and at
2147483648 the narrowed value differs from the length. -/
theorem c10_witness :
    (CalcContactResults true emptyQuery 0 = some emptyMsg ∧
     emptyMsg.num_hydroelastic_contacts =
       int32ofNat (QuerySurfaces true emptyQuery).length) ∧
    (EncodeSurface scenarioB_surface = some scenarioB_record ∧
     scenarioB_record.num_triangles =
       int32ofNat scenarioB_surface.mesh_W.elements.length) ∧
    ((1 : Nat) ≤ 2147483647 ∧ int32ofNat 1 = (1 : Int)) ∧
    ((2147483647 : Nat) < 2147483648 ∧ int32ofNat 2147483648 ≠ ((2147483648 : Nat) : Int)) :=
  ⟨⟨calc_empty, (c10_int32_narrowing.1 true emptyQuery 0 emptyMsg calc_empty).1⟩,
   ⟨encode_scenarioB, c10_int32_narrowing.2.1 scenarioB_surface scenarioB_record
      encode_scenarioB⟩,
   ⟨by norm_num, c10_int32_narrowing.2.2.1 1 (by norm_num)⟩,
   ⟨by norm_num, c10_int32_narrowing.2.2.2 2147483648 (by norm_num)⟩⟩
